import Mathlib

/-!
# Verification of the MWA association-and-session protocol (src/js/mwa.js)

Shallow embedding of the Mobile Wallet Adapter client implemented in
`src/js/mwa.js`.  Byte buffers are `List Nat` (each entry < 256 where it
matters), the browser's AES-GCM primitive is an abstract authenticated
cipher, and the event-driven session code is embedded as explicit state
transition functions on a session-state record.
-/

namespace MWA

/-- Bytes are natural numbers; a buffer is a list of them. -/
abbrev Bytes := List Nat

/-! ## Sequence numbers (`createSequenceNumberVector`, mwa.js lines 127-135)

The source throws "Outbound sequence number overflow" when
`sequenceNumber >= 4294967296` and otherwise writes the number with
`DataView.setUint32(0, n, false)`, i.e. 4 bytes big-endian. -/

/-- Big-endian 4-byte encoding as produced by `setUint32(0, n, false)`. -/
def uint32BigEndianBytes (n : Nat) : Bytes :=
  [n / 16777216 % 256, n / 65536 % 256, n / 256 % 256, n % 256]

/-- Embeds `createSequenceNumberVector` (mwa.js 127-135): rejects
`sequenceNumber >= 2^32` with an overflow error, otherwise returns the
4-byte big-endian encoding. -/
def createSequenceNumberVector (sequenceNumber : Nat) : Except String Bytes :=
  if sequenceNumber ≥ 4294967296 then
    Except.error "Outbound sequence number overflow"
  else
    Except.ok (uint32BigEndianBytes sequenceNumber)

/-- Recovers the numeric value of a 4-byte big-endian buffer (the reader
side of `setUint32`/`getUint32`). -/
def uint32FromBigEndianBytes (bs : Bytes) : Nat :=
  match bs with
  | [a, b, c, d] => ((a * 256 + b) * 256 + c) * 256 + d
  | _ => 0

/-! ## Abstract authenticated cipher

`crypto.subtle.encrypt`/`decrypt` with AES-GCM are browser primitives, not
code of this repository.  They are modelled as an abstract authenticated
cipher with associated data: `enc key iv aad plaintext` yields a
ciphertext (which includes the 16-byte authentication tag) and
`dec key iv aad ciphertext` either recovers the plaintext or fails
(authentication-tag mismatch). -/

structure AEAD where
  enc : Nat → Bytes → Bytes → Bytes → Bytes
  dec : Nat → Bytes → Bytes → Bytes → Option Bytes

/-- Functional correctness of an authenticated cipher: decrypting with the
same key, nonce and associated data recovers the plaintext. -/
def AEAD.Correct (A : AEAD) : Prop :=
  ∀ key iv aad pt, A.dec key iv aad (A.enc key iv aad pt) = some pt

/-! ## Message framing (`encryptMessage` / `decryptMessage`, mwa.js 218-270)

`encryptMessage` builds `seq(4) ++ iv(12) ++ ciphertext` with the sequence
vector as additional authenticated data; `decryptMessage` slices at the
fixed offsets `SEQUENCE_NUMBER_BYTES = 4` and
`SEQUENCE_NUMBER_BYTES + INITIALIZATION_VECTOR_BYTES = 16` and decrypts
with the leading 4 bytes as associated data.  The source draws the
12-byte nonce from `crypto.getRandomValues`; here it is a parameter. -/

/-- Embeds `encryptMessage` (mwa.js 218-243).  Plaintext is the UTF-8
byte image of the source's string argument. -/
def encryptMessage (A : AEAD) (plaintext : Bytes) (sequenceNumber : Nat)
    (sharedSecret : Nat) (initializationVector : Bytes) : Except String Bytes :=
  match createSequenceNumberVector sequenceNumber with
  | Except.error e => Except.error e
  | Except.ok sequenceNumberVector =>
      Except.ok (sequenceNumberVector ++ initializationVector ++
        A.enc sharedSecret initializationVector sequenceNumberVector plaintext)

/-- Embeds `decryptMessage` (mwa.js 252-270): slices
`message[0..4]`, `message[4..16]`, `message[16..]` and decrypts with the
leading 4 bytes as additional authenticated data. -/
def decryptMessage (A : AEAD) (message : Bytes) (sharedSecret : Nat) : Option Bytes :=
  A.dec sharedSecret ((message.drop 4).take 12) (message.take 4) (message.drop 16)

/-! ## Handshake (`parseHelloRsp`, mwa.js 154-206)

The source first checks `payloadBuffer.byteLength <
ENCODED_PUBLIC_KEY_LENGTH_BYTES` (= 65) and throws "HELLO_RSP too short"
otherwise; it then slices the 65-byte prefix and hands it to
`crypto.subtle.importKey` / `deriveBits` / `deriveKey`.  Those browser
primitives reject invalid curve-point encodings; the embedding abstracts
their success condition as a caller-supplied predicate `importOk` on the
65-byte prefix.  On success the source derives the AES key by HKDF with
the raw-exported association public key as salt and an empty info, from
the ECDH shared secret of the local ephemeral private key and the
wallet public key. -/

/-- Description of the session key `parseHelloRsp` derives: which ECDH
inputs produced the shared secret and which HKDF salt/info were used. -/
structure SessionKeyDesc where
  ecdhPrivate : Nat
  remotePublic : Bytes
  hkdfSalt : Bytes
  hkdfInfo : Bytes
deriving DecidableEq, Repr

/-- Embeds `parseHelloRsp` (mwa.js 154-206).  `importOk` abstracts the
curve-point validity check done by `crypto.subtle` on the 65-byte
prefix. -/
def parseHelloRsp (importOk : Bytes → Bool) (payloadBuffer : Bytes)
    (associationPublicKeyRaw : Bytes) (ecdhPrivateKey : Nat) :
    Except String SessionKeyDesc :=
  if payloadBuffer.length < 65 then
    Except.error ("HELLO_RSP too short: " ++ toString payloadBuffer.length ++ " < 65")
  else
    let walletPublicKeyBytes := payloadBuffer.take 65
    if importOk walletPublicKeyBytes then
      Except.ok { ecdhPrivate := ecdhPrivateKey,
                  remotePublic := walletPublicKeyBytes,
                  hkdfSalt := associationPublicKeyRaw,
                  hkdfInfo := [] }
    else
      Except.error "MalformedHandshake: key agreement rejected the public value"

/-- True when an `Except` computation failed. -/
def exceptFailed {ε α : Type} (e : Except ε α) : Bool :=
  match e with
  | Except.error _ => true
  | Except.ok _ => false

/-! ## Association URL (`base64ToUrlSafe`, `getRandomPort`,
`getAssociateAndroidIntentURL`, mwa.js 102-113 and 302-313) -/

/-- The standard base64 alphabet used by `btoa`. -/
def base64Alphabet : List Char :=
  "ABCDEFGHIJKLMNOPQRSTUVWXYZabcdefghijklmnopqrstuvwxyz0123456789+/".toList

/-- Character for a 6-bit group. -/
def base64Char (n : Nat) : Char := base64Alphabet.getD n 'A'

/-- RFC 4648 base64 of a byte buffer with `=` padding: the semantics of
`arrayBufferToBase64` (mwa.js 83-90), whose work is done by `btoa`. -/
def arrayBufferToBase64 : Bytes → List Char
  | [] => []
  | [b1] =>
      [base64Char (b1 / 4), base64Char (b1 % 4 * 16), '=', '=']
  | [b1, b2] =>
      [base64Char (b1 / 4), base64Char (b1 % 4 * 16 + b2 / 16),
       base64Char (b2 % 16 * 4), '=']
  | b1 :: b2 :: b3 :: rest =>
      base64Char (b1 / 4) :: base64Char (b1 % 4 * 16 + b2 / 16) ::
      base64Char (b2 % 16 * 4 + b3 / 64) :: base64Char (b3 % 64) ::
      arrayBufferToBase64 rest

/-- Drops a trailing run of `=` characters: the `replace(/=+$/, '')` step. -/
def stripTrailingPad (s : List Char) : List Char :=
  (s.reverse.dropWhile (fun c => c = '=')).reverse

/-- Embeds `base64ToUrlSafe` (mwa.js 102-105): `+` becomes `-`, `/`
becomes `_`, then the trailing `=` padding is removed. -/
def base64ToUrlSafe (s : List Char) : List Char :=
  stripTrailingPad (s.map (fun c => if c = '+' then '-' else if c = '/' then '_' else c))

/-- Embeds `getRandomPort` (mwa.js 111-113).  The source computes
`49152 + Math.floor(Math.random() * 16384)`; `randFloor` stands for the
floored product, which lies in `0..16383` since `Math.random() < 1`. -/
def getRandomPort (randFloor : Nat) : Nat := 49152 + randFloor

/-- A parsed URL: scheme, path and ordered query parameters, as built by
`new URL('solana-wallet:/v1/associate/local')` plus `searchParams.set`. -/
structure UrlModel where
  scheme : String
  path : String
  query : List (String × List Char)
deriving DecidableEq, Repr

/-- Embeds `getAssociateAndroidIntentURL` (mwa.js 302-313):
`solana-wallet:/v1/associate/local` with query parameters
`association` (URL-safe unpadded base64 of the raw-exported key),
`port` (decimal) and `v = v1`. -/
def getAssociateAndroidIntentURL (exportedKey : Bytes) (port : Nat) : UrlModel :=
  { scheme := "solana-wallet",
    path := "/v1/associate/local",
    query := [("association", base64ToUrlSafe (arrayBufferToBase64 exportedKey)),
              ("port", (toString port).toList),
              ("v", "v1".toList)] }

/-! ## Connection retry (`getNextRetryDelayMs` / `handleError`,
mwa.js 33-36, 433-438, 502-514)

`transact` copies `WEBSOCKET_CONNECTION_CONFIG.retryDelayScheduleMs` into
a mutable array `retrySchedule` and defines
`getNextRetryDelayMs = () => retrySchedule.length > 1 ?
retrySchedule.shift() : retrySchedule[0]`: while more than one entry
remains the head is removed and returned; once a single entry remains it
is returned forever.  `handleError` first compares
`Date.now() - connectionStartTime` against `timeoutMs = 30000` and
rejects with `ERROR_SESSION_TIMEOUT` when the elapsed time has reached
the budget; otherwise it schedules a retry after the next delay. -/

/-- The fixed delay schedule `retryDelayScheduleMs` (mwa.js 34). -/
def retryDelayScheduleMs : List Nat := [150, 150, 200, 500, 500, 750, 750, 1000]

/-- The overall connection budget `timeoutMs` (mwa.js 35). -/
def connectionTimeoutMs : Nat := 30000

/-- Embeds `getNextRetryDelayMs` (mwa.js 438): returns the delay to wait
and the remaining schedule (`shift` removes the head only while more
than one entry remains). -/
def getNextRetryDelayMs (retrySchedule : List Nat) : Nat × List Nat :=
  if retrySchedule.length > 1 then
    (retrySchedule.headD 0, retrySchedule.tail)
  else
    (retrySchedule.headD 0, retrySchedule)

/-- The mutable `retrySchedule` after `n` calls to `getNextRetryDelayMs`,
starting from the full schedule. -/
def scheduleAfter : Nat → List Nat
  | 0 => retryDelayScheduleMs
  | n + 1 => (getNextRetryDelayMs (scheduleAfter n)).2

/-- The delay waited at the `n`-th connection error, 0-based: the value
`getNextRetryDelayMs` returns on its `(n+1)`-th call. -/
def nthRetryDelay (n : Nat) : Nat :=
  (getNextRetryDelayMs (scheduleAfter n)).1

/-- Embeds the branch structure of `handleError` (mwa.js 502-514): when
the elapsed wall-clock time since the first connection attempt has
reached `timeoutMs` the session is rejected with
`ERROR_SESSION_TIMEOUT`; otherwise the next retry is scheduled after
`getNextRetryDelayMs`. -/
def handleError (elapsed : Nat) (retrySchedule : List Nat) :
    Except String (Nat × List Nat) :=
  if elapsed ≥ connectionTimeoutMs then
    Except.error "ERROR_SESSION_TIMEOUT: Failed to connect to wallet WebSocket."
  else
    Except.ok (getNextRetryDelayMs retrySchedule)

/-! ## Session state machine (mwa.js 440-612)

`transact`'s promise body keeps: `state` (a tagged object:
`connecting`, `connected`, `hello_sent`, `session_ready`, `done`),
`pendingRequests` (a map from JSON-RPC id to a continuation) and the
socket.  The embedding keeps the state tag, the ids present in the
pending table and whether the socket is still open; inbound JSON-RPC
envelopes are records with the fields the code reads (`id`, `error`). -/

inductive StateType
  | connecting
  | connected
  | helloSent
  | sessionReady
  | done
deriving DecidableEq, Repr

structure SessionState where
  stype : StateType
  pending : List Nat
  socketOpen : Bool
deriving DecidableEq, Repr

/-- A JSON-RPC error object (`code`, `message`), as tested by
`if (jsonRpcMessage.error)`. -/
structure RpcError where
  code : Int
  message : String
deriving DecidableEq, Repr

/-- A decrypted response envelope: the fields `handleMessage` reads. -/
structure Envelope where
  id : Nat
  error : Option RpcError
deriving DecidableEq, Repr

/-- The error message thrown by `decryptJsonRpcMessage` for an error
envelope (mwa.js 284). -/
def mwaErrorMessage (e : RpcError) : String :=
  "MWA Error " ++ toString e.code ++ ": " ++ e.message

/-- Embeds `decryptJsonRpcMessage` (mwa.js 280-287) on an
already-decrypted, already-parsed envelope: throws the `MWA Error`
message when the envelope carries an error object, otherwise returns the
envelope. -/
def decryptJsonRpcMessage (env : Envelope) : Except String Envelope :=
  match env.error with
  | some e => Except.error (mwaErrorMessage e)
  | none => Except.ok env

/-- The externally observable effect of one `handleMessage` run. -/
inductive SessionOutcome
  | resolvedPending (id : Nat)
  | rejectedPending (id : Nat)
  | sessionRejected (msg : String)
  | noAction
deriving DecidableEq, Repr

/-- Embeds the `session_ready` branch of `handleMessage` together with
its `catch` (mwa.js 580-598) on an authenticated inbound frame whose
leading sequence field is `seq` and whose decrypted payload parses to
`env`.  When the envelope carries an error object,
`decryptJsonRpcMessage` throws the `MWA Error ...` message (mwa.js
283-284); the catch (mwa.js 591-597) tests exactly that prefix — true
here by construction of the message — and runs `cleanup();
socket.close(); reject(e)`: the whole-session promise is rejected and
the socket closed, while `state` and `pendingRequests` are left as they
were.  A success envelope resolves and removes the matching pending
entry, and is ignored when no entry matches.  `seq` is read by no
branch. -/
def handleMessageReady (st : SessionState) (seq : Nat) (env : Envelope) :
    SessionState × SessionOutcome :=
  match decryptJsonRpcMessage env with
  | Except.error e =>
      ({ st with socketOpen := false }, SessionOutcome.sessionRejected e)
  | Except.ok response =>
      if response.id ∈ st.pending then
        ({ st with pending := st.pending.erase response.id },
         SessionOutcome.resolvedPending response.id)
      else
        (st, SessionOutcome.noAction)

/-- Embeds `handleClose` (mwa.js 495-500): after `cleanup()` (listener
removal only), an unclean close while `state.type !== 'done'` rejects the
whole-session promise with `Session closed unexpectedly`; nothing else is
touched — in particular `pendingRequests` is not iterated, emptied or
rejected.  Returns the session state afterwards and the session-level
rejection message, if any. -/
def handleClose (st : SessionState) (wasClean : Bool) (code : Nat)
    (reason : String) : SessionState × Option String :=
  if wasClean = false ∧ st.stype ≠ StateType.done then
    (st, some ("Session closed unexpectedly: " ++ toString code ++ " " ++ reason))
  else
    (st, none)

/-! ## `transact` entry (mwa.js 420-430)

`transact` first checks `typeof window === 'undefined' ||
!window.isSecureContext` and throws `ERROR_SECURE_CONTEXT_REQUIRED`
before generating the association keypair (line 427), launching the
invocation URL (line 430 via `startSession`) or opening a socket
(line 611). -/

/-- The execution context bits `transact` consults. -/
structure BrowserEnv where
  hasWindow : Bool
  isSecureContext : Bool
deriving DecidableEq, Repr

/-- Side effects of `transact`'s setup sequence, in program order. -/
inductive TransactEffect
  | generatedKeypair
  | launchedUrl
  | openedSocket
deriving DecidableEq, Repr

/-- Embeds the prelude of `transact` (mwa.js 420-430 and 611): the
secure-context guard runs first; only when it passes does the code
generate the identity keypair, launch the invocation URL and open the
socket. -/
def transactStart (env : BrowserEnv) : Except String Unit × List TransactEffect :=
  if env.hasWindow = false ∨ env.isSecureContext = false then
    (Except.error "ERROR_SECURE_CONTEXT_REQUIRED: MWA protocol requires HTTPS.", [])
  else
    (Except.ok (),
     [TransactEffect.generatedKeypair, TransactEffect.launchedUrl,
      TransactEffect.openedSocket])

/-! ## Spec-side definitions and concrete instances for witnesses -/

/-- Written from the spec's words for the refinement comparison in C7:
"URL-safe unpadded base64 encoding ... (standard base64 with `+`
replaced by `-`, `/` by `_`, and trailing `=` padding removed)". -/
def urlSafeUnpaddedBase64Spec (bytes : Bytes) : List Char :=
  let replaced := (arrayBufferToBase64 bytes).map
    (fun c => if c = '+' then '-' else if c = '/' then '_' else c)
  (replaced.reverse.dropWhile (fun c => c = '=')).reverse

/-- A concrete authenticated cipher used only to instantiate witness
theorems: the ciphertext is the plaintext itself and decryption always
succeeds. -/
def plainAEAD : AEAD :=
  { enc := fun _ _ _ pt => pt, dec := fun _ _ _ ct => some ct }

/-- A concrete 65-byte uncompressed-point buffer (0x04 prefix) for
witness instantiations. -/
def samplePoint65 : Bytes := 4 :: List.replicate 64 0

/-- A concrete import-success predicate for witness instantiations:
accepts 65-byte buffers led by the uncompressed-point prefix 0x04. -/
def sampleImportOk (b : Bytes) : Bool :=
  b.length == 65 && b.headD 0 == 4

/-- A concrete Ready-state session with pending requests 1 and 2 and an
open socket, for counterexamples and witnesses. -/
def readyStateTwoPending : SessionState :=
  { stype := StateType.sessionReady, pending := [1, 2], socketOpen := true }

/-- A concrete structured JSON-RPC error, for counterexamples and
witnesses. -/
def sampleRpcError : RpcError := { code := -32603, message := "Internal error" }

/-- A concrete response envelope for request 1 carrying a structured
error object. -/
def errorEnvelope1 : Envelope := { id := 1, error := some sampleRpcError }

/-- A concrete successful response envelope for a given request id. -/
def okEnvelope (i : Nat) : Envelope := { id := i, error := none }

/-! ## Theorems -/

/-- The sequence vector of an in-range sequence number is the 4-byte
big-endian encoding. -/
theorem createSequenceNumberVector_ok (n : Nat) (h : n < 4294967296) :
    createSequenceNumberVector n = Except.ok (uint32BigEndianBytes n) := by
  unfold createSequenceNumberVector
  rw [if_neg (by omega)]

/-- C1: for every plaintext, every sequence number below `2^32` and every
session key (under any functionally correct authenticated cipher, with
any 12-byte nonce), decoding the frame produced by `encryptMessage`
with `decryptMessage` under the same key returns exactly the plaintext:
the frame is `seq(4) ++ nonce(12) ++ ciphertext`, and `decryptMessage`
slices those fields at the fixed offsets and decrypts with the leading
4 bytes as additional authenticated data. -/
theorem encryptMessage_decryptMessage_roundtrip (A : AEAD) (hA : A.Correct)
    (plaintext : Bytes) (sequenceNumber sharedSecret : Nat) (iv : Bytes)
    (hseq : sequenceNumber < 4294967296) (hiv : iv.length = 12) :
    ∃ frame,
      encryptMessage A plaintext sequenceNumber sharedSecret iv = Except.ok frame ∧
      decryptMessage A frame sharedSecret = some plaintext := by
  have hsv := createSequenceNumberVector_ok sequenceNumber hseq
  set sv := uint32BigEndianBytes sequenceNumber with hsvdef
  have hsvlen : sv.length = 4 := rfl
  set ct := A.enc sharedSecret iv sv plaintext with hctdef
  refine ⟨sv ++ iv ++ ct, ?_, ?_⟩
  · unfold encryptMessage
    rw [hsv]
  · have hdrop4 : (sv ++ (iv ++ ct)).drop 4 = iv ++ ct := List.drop_left' hsvlen
    have htake4 : (sv ++ (iv ++ ct)).take 4 = sv := List.take_left' hsvlen
    have hdrop16 : (sv ++ (iv ++ ct)).drop 16 = ct := by
      calc (sv ++ (iv ++ ct)).drop 16 = ((sv ++ (iv ++ ct)).drop 4).drop 12 := by
            rw [List.drop_drop]
        _ = (iv ++ ct).drop 12 := by rw [hdrop4]
        _ = ct := List.drop_left' hiv
    unfold decryptMessage
    rw [List.append_assoc, hdrop4, List.take_left' hiv, htake4, hdrop16]
    exact hA sharedSecret iv sv plaintext

/-- C1 witness: the round-trip evaluated on concrete inputs. -/
theorem encryptMessage_decryptMessage_roundtrip_witness :
    ∃ frame,
      encryptMessage plainAEAD [104, 105] 7 0 (List.replicate 12 0) = Except.ok frame ∧
      decryptMessage plainAEAD frame 0 = some [104, 105] :=
  encryptMessage_decryptMessage_roundtrip plainAEAD
    (fun _ _ _ _ => rfl) [104, 105] 7 0 (List.replicate 12 0)
    (by decide) (by decide)

/-- C5: every sequence number strictly below `2^32` is encoded
successfully as a faithful (never modulo-reduced) 4-byte big-endian
vector, and every sequence number at or above `2^32` — in particular
the first increment past `2^32 - 1` — raises the overflow error
instead of wrapping to 0. -/
theorem createSequenceNumberVector_overflow_behavior :
    (∀ n, n < 4294967296 →
      ∃ bs, createSequenceNumberVector n = Except.ok bs ∧ bs.length = 4 ∧
        uint32FromBigEndianBytes bs = n) ∧
    (∀ n, 4294967296 ≤ n →
      createSequenceNumberVector n =
        Except.error "Outbound sequence number overflow") := by
  constructor
  · intro n h
    refine ⟨uint32BigEndianBytes n, createSequenceNumberVector_ok n h, rfl, ?_⟩
    show ((n / 16777216 % 256 * 256 + n / 65536 % 256) * 256 + n / 256 % 256) * 256
        + n % 256 = n
    omega
  · intro n h
    unfold createSequenceNumberVector
    rw [if_pos h]

/-- C5 witness: the boundary values `2^32 - 1` (encodes faithfully) and
`2^32` (overflow error). -/
theorem createSequenceNumberVector_overflow_behavior_witness :
    (∃ bs, createSequenceNumberVector 4294967295 = Except.ok bs ∧ bs.length = 4 ∧
      uint32FromBigEndianBytes bs = 4294967295) ∧
    createSequenceNumberVector 4294967296 =
      Except.error "Outbound sequence number overflow" :=
  ⟨createSequenceNumberVector_overflow_behavior.1 4294967295 (by decide),
   createSequenceNumberVector_overflow_behavior.2 4294967296 (by decide)⟩

/-- C4: `parseHelloRsp` fails if and only if the input is shorter than
the fixed 65-byte encoded-public-key length or key agreement rejects the
65-byte prefix; an input of length 64 fails; and an input of exactly 65
bytes accepted by key agreement succeeds, returning the session key
derived from that prefix with the identity (association) public value as
HKDF salt and an empty info string. -/
theorem parseHelloRsp_spec (importOk : Bytes → Bool) (payload assoc : Bytes)
    (priv : Nat) :
    (exceptFailed (parseHelloRsp importOk payload assoc priv) = true ↔
      payload.length < 65 ∨ importOk (payload.take 65) = false) ∧
    (payload.length = 64 →
      exceptFailed (parseHelloRsp importOk payload assoc priv) = true) ∧
    (payload.length = 65 → importOk payload = true →
      parseHelloRsp importOk payload assoc priv =
        Except.ok { ecdhPrivate := priv, remotePublic := payload,
                    hkdfSalt := assoc, hkdfInfo := [] }) := by
  refine ⟨?_, ?_, ?_⟩
  · unfold parseHelloRsp
    by_cases hlen : payload.length < 65
    · rw [if_pos hlen]
      simp [exceptFailed, hlen]
    · rw [if_neg hlen]
      by_cases himp : importOk (payload.take 65)
      · simp only [himp, if_pos]
        simp [exceptFailed, hlen, himp]
      · simp only [Bool.not_eq_true] at himp
        simp [exceptFailed, hlen, himp]
  · intro h64
    unfold parseHelloRsp
    rw [if_pos (by omega)]
    rfl
  · intro h65 himp
    have htake : payload.take 65 = payload := List.take_of_length_le (le_of_eq h65)
    unfold parseHelloRsp
    rw [if_neg (by omega)]
    show (if importOk (payload.take 65) then _ else _) = _
    rw [htake, if_pos himp]

/-- C4 witness: a 65-byte uncompressed-point buffer accepted by the
sample import predicate succeeds with the expected key description. -/
theorem parseHelloRsp_spec_witness :
    parseHelloRsp sampleImportOk samplePoint65 [1, 2] 9 =
      Except.ok { ecdhPrivate := 9, remotePublic := samplePoint65,
                  hkdfSalt := [1, 2], hkdfInfo := [] } :=
  (parseHelloRsp_spec sampleImportOk samplePoint65 [1, 2] 9).2.2
    (by decide) (by decide)

/-- After seven calls the mutable retry schedule is pinned at `[1000]`
and stays there. -/
theorem scheduleAfter_seven_add (k : Nat) : scheduleAfter (7 + k) = [1000] := by
  induction k with
  | zero => rfl
  | succ k ih =>
      show (getNextRetryDelayMs (scheduleAfter (7 + k))).2 = [1000]
      rw [ih]
      rfl

/-- C6: with the fixed schedule `[150,150,200,500,500,750,750,1000]`,
the `n`-th connection error (0-based) waits the `n`-th schedule entry
while the schedule lasts, every error from the eighth on waits the last
entry (1000 ms), and whenever the elapsed wall-clock time at a
connection error has reached the 30000 ms budget the session fails with
the session-timeout error instead of scheduling a retry, regardless of
the remaining schedule. -/
theorem retry_schedule_and_timeout :
    (∀ n, n < 8 → nthRetryDelay n = retryDelayScheduleMs.getD n 0) ∧
    (∀ n, 7 ≤ n → nthRetryDelay n = 1000) ∧
    (∀ elapsed schedule, 30000 ≤ elapsed →
      handleError elapsed schedule =
        Except.error "ERROR_SESSION_TIMEOUT: Failed to connect to wallet WebSocket.") ∧
    (∀ elapsed schedule, elapsed < 30000 →
      handleError elapsed schedule = Except.ok (getNextRetryDelayMs schedule)) := by
  refine ⟨by decide, ?_, ?_, ?_⟩
  · intro n hn
    obtain ⟨k, rfl⟩ : ∃ k, n = 7 + k := ⟨n - 7, by omega⟩
    show (getNextRetryDelayMs (scheduleAfter (7 + k))).1 = 1000
    rw [scheduleAfter_seven_add]
    rfl
  · intro elapsed schedule h
    unfold handleError
    rw [if_pos (by simpa [connectionTimeoutMs] using h)]
  · intro elapsed schedule h
    unfold handleError
    rw [if_neg (by simp [connectionTimeoutMs]; omega)]

/-- C6 witness: the third error waits entry 3 (200 ms), the hundredth
waits 1000 ms, an error at 30000 ms elapsed fails with the timeout
error, and an error at 100 ms elapsed schedules the next delay. -/
theorem retry_schedule_and_timeout_witness :
    nthRetryDelay 2 = retryDelayScheduleMs.getD 2 0 ∧
    nthRetryDelay 99 = 1000 ∧
    handleError 30000 [150] =
      Except.error "ERROR_SESSION_TIMEOUT: Failed to connect to wallet WebSocket." ∧
    handleError 100 retryDelayScheduleMs =
      Except.ok (getNextRetryDelayMs retryDelayScheduleMs) :=
  ⟨retry_schedule_and_timeout.1 2 (by decide),
   retry_schedule_and_timeout.2.1 99 (by decide),
   retry_schedule_and_timeout.2.2.1 30000 [150] (by decide),
   retry_schedule_and_timeout.2.2.2 100 retryDelayScheduleMs (by decide)⟩

/-- Every character `base64Char` produces is in the base64 alphabet. -/
theorem base64Char_mem_alphabet (n : Nat) : base64Char n ∈ base64Alphabet := by
  unfold base64Char
  rcases Nat.lt_or_ge n base64Alphabet.length with h | h
  · rw [List.getD_eq_getElem base64Alphabet 'A' h]
    exact List.getElem_mem h
  · rw [List.getD_eq_default base64Alphabet 'A' h]
    decide

/-- A base64 encoding splits into alphabet characters followed by a
trailing run of `=` padding. -/
theorem arrayBufferToBase64_shape (bytes : Bytes) :
    ∃ body k, arrayBufferToBase64 bytes = body ++ List.replicate k '=' ∧
      ∀ c ∈ body, c ∈ base64Alphabet := by
  induction bytes using arrayBufferToBase64.induct with
  | case1 => exact ⟨[], 0, rfl, by simp⟩
  | case2 b1 =>
      refine ⟨[base64Char (b1 / 4), base64Char (b1 % 4 * 16)], 2, rfl, ?_⟩
      intro c hc
      simp only [List.mem_cons, List.not_mem_nil, or_false] at hc
      rcases hc with rfl | rfl <;> exact base64Char_mem_alphabet _
  | case3 b1 b2 =>
      refine ⟨[base64Char (b1 / 4), base64Char (b1 % 4 * 16 + b2 / 16),
               base64Char (b2 % 16 * 4)], 1, rfl, ?_⟩
      intro c hc
      simp only [List.mem_cons, List.not_mem_nil, or_false] at hc
      rcases hc with rfl | rfl | rfl <;> exact base64Char_mem_alphabet _
  | case4 b1 b2 b3 rest ih =>
      obtain ⟨body, k, heq, hmem⟩ := ih
      refine ⟨base64Char (b1 / 4) :: base64Char (b1 % 4 * 16 + b2 / 16) ::
              base64Char (b2 % 16 * 4 + b3 / 64) :: base64Char (b3 % 64) :: body,
              k, ?_, ?_⟩
      · show base64Char (b1 / 4) :: base64Char (b1 % 4 * 16 + b2 / 16) ::
            base64Char (b2 % 16 * 4 + b3 / 64) :: base64Char (b3 % 64) ::
            arrayBufferToBase64 rest = _
        rw [heq]
        rfl
      · intro c hc
        simp only [List.mem_cons] at hc
        rcases hc with rfl | rfl | rfl | rfl | hc
        · exact base64Char_mem_alphabet _
        · exact base64Char_mem_alphabet _
        · exact base64Char_mem_alphabet _
        · exact base64Char_mem_alphabet _
        · exact hmem c hc

/-- Dropping `=`-characters from a leading `=`-run skips the run. -/
theorem dropWhile_pad_replicate (k : Nat) (ys : List Char) :
    List.dropWhile (fun c => c = '=') (List.replicate k '=' ++ ys) =
      List.dropWhile (fun c => c = '=') ys := by
  induction k with
  | zero => simp
  | succ k ih => simp [List.replicate_succ, List.dropWhile_cons, ih]

/-- Dropping `=`-characters from a list containing none is the identity. -/
theorem dropWhile_pad_of_not_mem (ys : List Char) (h : '=' ∉ ys) :
    List.dropWhile (fun c => c = '=') ys = ys := by
  cases ys with
  | nil => rfl
  | cons y t =>
      have hy : y ≠ '=' := fun hc => h (hc ▸ List.mem_cons_self y t)
      simp [List.dropWhile_cons, hy]

/-- The replacement step of `base64ToUrlSafe` never produces `+`, `/`
or (on alphabet characters) `=`. -/
theorem urlReplace_safe (c : Char) (hc : c ∈ base64Alphabet) :
    (if c = '+' then '-' else if c = '/' then '_' else c) ≠ '+' ∧
    (if c = '+' then '-' else if c = '/' then '_' else c) ≠ '/' ∧
    (if c = '+' then '-' else if c = '/' then '_' else c) ≠ '=' := by
  have hne : c ≠ '=' := by
    intro hc2
    rw [hc2] at hc
    exact absurd hc (by decide)
  by_cases h1 : c = '+'
  · simp [h1]
  · by_cases h2 : c = '/'
    · simp [h1, h2]
    · simp [h1, h2, hne]

/-- The association value `base64ToUrlSafe ∘ arrayBufferToBase64`
contains no `+`, no `/` and no `=`: it is URL-safe and unpadded. -/
theorem base64ToUrlSafe_urlSafe (bytes : Bytes) :
    ∀ c ∈ base64ToUrlSafe (arrayBufferToBase64 bytes),
      c ≠ '+' ∧ c ≠ '/' ∧ c ≠ '=' := by
  obtain ⟨body, k, heq, hmem⟩ := arrayBufferToBase64_shape bytes
  have hmapbody : ∀ c ∈ body.map
      (fun c => if c = '+' then '-' else if c = '/' then '_' else c),
      c ≠ '+' ∧ c ≠ '/' ∧ c ≠ '=' := by
    intro c hc
    obtain ⟨a, ha, rfl⟩ := List.mem_map.1 hc
    exact urlReplace_safe a (hmem a ha)
  have hnopad : '=' ∉ (body.map
      (fun c => if c = '+' then '-' else if c = '/' then '_' else c)).reverse := by
    intro hmem2
    rw [List.mem_reverse] at hmem2
    exact (hmapbody '=' hmem2).2.2 rfl
  unfold base64ToUrlSafe stripTrailingPad
  rw [heq, List.map_append, List.map_replicate]
  show ∀ c ∈ (((_ ++ List.replicate k '=').reverse.dropWhile _).reverse), _
  rw [List.reverse_append, List.reverse_replicate, dropWhile_pad_replicate,
    dropWhile_pad_of_not_mem _ hnopad, List.reverse_reverse]
  exact hmapbody

/-- C7: the invocation URL is a `solana-wallet:` custom-scheme URL with
path `/v1/associate/local` and query parameters `association` (the
URL-safe unpadded base64 of the raw-exported identity public key, per
the spec-side definition, and free of `+`, `/` and `=`), `port` (the
decimal rendering of the port) and `v = v1`; and every generated port
lies in the ephemeral range 49152-65535. -/
theorem associate_url_spec (exportedKey : Bytes) (port randFloor : Nat)
    (hr : randFloor < 16384) :
    (getAssociateAndroidIntentURL exportedKey port).scheme = "solana-wallet" ∧
    (getAssociateAndroidIntentURL exportedKey port).path = "/v1/associate/local" ∧
    (getAssociateAndroidIntentURL exportedKey port).query =
      [("association", urlSafeUnpaddedBase64Spec exportedKey),
       ("port", (toString port).toList), ("v", "v1".toList)] ∧
    (∀ c ∈ base64ToUrlSafe (arrayBufferToBase64 exportedKey),
      c ≠ '+' ∧ c ≠ '/' ∧ c ≠ '=') ∧
    49152 ≤ getRandomPort randFloor ∧ getRandomPort randFloor ≤ 65535 := by
  refine ⟨rfl, rfl, rfl, base64ToUrlSafe_urlSafe exportedKey, ?_, ?_⟩
  · unfold getRandomPort
    omega
  · unfold getRandomPort
    omega

/-- C7 witness: the URL built for a concrete exported key and port, and
the port drawn from the largest random value. -/
theorem associate_url_spec_witness :
    (getAssociateAndroidIntentURL [4, 255, 0] 50000).scheme = "solana-wallet" ∧
    (getAssociateAndroidIntentURL [4, 255, 0] 50000).path = "/v1/associate/local" ∧
    (getAssociateAndroidIntentURL [4, 255, 0] 50000).query =
      [("association", urlSafeUnpaddedBase64Spec [4, 255, 0]),
       ("port", (toString 50000).toList), ("v", "v1".toList)] ∧
    (∀ c ∈ base64ToUrlSafe (arrayBufferToBase64 [4, 255, 0]),
      c ≠ '+' ∧ c ≠ '/' ∧ c ≠ '=') ∧
    49152 ≤ getRandomPort 16383 ∧ getRandomPort 16383 ≤ 65535 :=
  associate_url_spec [4, 255, 0] 50000 16383 (by decide)

/-- C2 counterexample: in the Ready state with pending requests 1 and 2
and an inbound error envelope for request 1, the claim expects the error
to be delivered to pending request 1 and the socket to stay open; the
code instead closes the socket and rejects the whole-session promise,
leaving both pending entries untouched. -/
theorem handleMessageReady_error_counterexample :
    ¬ ((handleMessageReady readyStateTwoPending 3 errorEnvelope1).2 =
        SessionOutcome.rejectedPending 1 ∧
       (handleMessageReady readyStateTwoPending 3 errorEnvelope1).1.socketOpen = true) := by
  decide

/-- C2 amended: an inbound response envelope carrying a structured error
object, received in the Ready state, rejects the whole-session promise
with the distinguishable `MWA Error` message and closes the socket; the
state tag and the pending-request table (including the entry whose id
matches the response) are left unchanged, so the matching pending
request is not individually rejected. -/
theorem handleMessageReady_error_rejects_session (st : SessionState) (seq : Nat)
    (env : Envelope) (e : RpcError) (hst : st.stype = StateType.sessionReady)
    (herr : env.error = some e) :
    handleMessageReady st seq env =
      ({ st with socketOpen := false },
       SessionOutcome.sessionRejected (mwaErrorMessage e)) := by
  unfold handleMessageReady decryptJsonRpcMessage
  rw [herr]

/-- C2 witness: the amended behavior evaluated at a concrete Ready state
and error envelope. -/
theorem handleMessageReady_error_rejects_session_witness :
    handleMessageReady readyStateTwoPending 3 errorEnvelope1 =
      ({ stype := StateType.sessionReady, pending := [1, 2], socketOpen := false },
       SessionOutcome.sessionRejected (mwaErrorMessage sampleRpcError)) :=
  handleMessageReady_error_rejects_session readyStateTwoPending 3 errorEnvelope1
    sampleRpcError rfl rfl

/-- C3 counterexample: after an unclean transport close in the Ready
state with pending requests 1 and 2, the claim expects the
pending-request table to be left empty; the code leaves both entries in
the table (and rejects only the whole-session promise). -/
theorem handleClose_counterexample :
    ¬ ((handleClose readyStateTwoPending false 1006 "abnormal").1.pending = []) := by
  decide

/-- C3 amended: an unclean transport close while the session is not done
rejects the whole-session promise with the `Session closed unexpectedly`
error; the pending-request table is not drained — every entry remains in
the table and no pending continuation is individually rejected. -/
theorem handleClose_unclean (st : SessionState) (code : Nat) (reason : String)
    (hst : st.stype ≠ StateType.done) :
    handleClose st false code reason =
      (st, some ("Session closed unexpectedly: " ++ toString code ++ " " ++ reason)) := by
  unfold handleClose
  rw [if_pos ⟨rfl, hst⟩]

/-- C3 witness: the amended behavior evaluated at a concrete Ready state
with two pending requests. -/
theorem handleClose_unclean_witness :
    handleClose readyStateTwoPending false 1006 "abnormal" =
      (readyStateTwoPending,
       some ("Session closed unexpectedly: " ++ toString 1006 ++ " " ++ "abnormal")) :=
  handleClose_unclean readyStateTwoPending 1006 "abnormal" (by decide)

/-- C8 counterexample: with pending requests 1 and 2, a frame with
sequence number 2 for request 2 is accepted first; a later frame with
sequence number 1 — at or below the last accepted inbound sequence
number — for the still-pending request 1 is then also accepted
(`resolvedPending 1`), because the receiving side never compares inbound
sequence numbers; the claim says such a frame is never accepted. -/
theorem handleMessageReady_replay_counterexample :
    (handleMessageReady (handleMessageReady readyStateTwoPending 2 (okEnvelope 2)).1
        1 (okEnvelope 1)).2 = SessionOutcome.resolvedPending 1 ∧ (1 : Nat) < 2 := by
  decide

/-- C8 amended: a frame whose envelope id was already delivered and
accepted once is never acted upon a second time — its pending entry was
removed on first acceptance, so reprocessing the identical frame leaves
the session state unchanged and performs no action.  (No inbound
sequence-number ordering check exists: acceptance is keyed purely on the
pending-request id.) -/
theorem handleMessageReady_no_double_accept (st : SessionState) (seq1 seq2 : Nat)
    (env : Envelope) (herr : env.error = none) (hnd : st.pending.Nodup)
    (hmem : env.id ∈ st.pending) :
    (handleMessageReady st seq1 env).2 = SessionOutcome.resolvedPending env.id ∧
    handleMessageReady (handleMessageReady st seq1 env).1 seq2 env =
      ((handleMessageReady st seq1 env).1, SessionOutcome.noAction) := by
  have h1 : handleMessageReady st seq1 env =
      ({ st with pending := st.pending.erase env.id },
       SessionOutcome.resolvedPending env.id) := by
    simp [handleMessageReady, decryptJsonRpcMessage, herr, hmem]
  have hnotmem : env.id ∉ st.pending.erase env.id := by
    intro hmem2
    exact absurd ((List.Nodup.mem_erase_iff hnd).1 hmem2).1 (by simp)
  refine ⟨by rw [h1], ?_⟩
  rw [h1]
  simp [handleMessageReady, decryptJsonRpcMessage, herr, hnotmem]

/-- C8 witness: the amended no-double-acceptance behavior evaluated at a
concrete Ready state and frame. -/
theorem handleMessageReady_no_double_accept_witness :
    (handleMessageReady readyStateTwoPending 1 (okEnvelope 1)).2 =
      SessionOutcome.resolvedPending 1 ∧
    handleMessageReady (handleMessageReady readyStateTwoPending 1 (okEnvelope 1)).1 1
        (okEnvelope 1) =
      ((handleMessageReady readyStateTwoPending 1 (okEnvelope 1)).1,
       SessionOutcome.noAction) :=
  handleMessageReady_no_double_accept readyStateTwoPending 1 1 (okEnvelope 1)
    rfl (by decide) (by decide)

/-- C9: in an execution context without a window object or outside a
secure context, `transact` fails immediately with the
secure-context-required error, and none of its setup effects (identity
keypair generation, invocation-URL launch, socket opening) happen. -/
theorem transact_insecure_context (env : BrowserEnv)
    (h : env.hasWindow = false ∨ env.isSecureContext = false) :
    transactStart env =
      (Except.error "ERROR_SECURE_CONTEXT_REQUIRED: MWA protocol requires HTTPS.", []) := by
  unfold transactStart
  rw [if_pos h]

/-- C9 witness: a window that is not a secure context. -/
theorem transact_insecure_context_witness :
    transactStart { hasWindow := true, isSecureContext := false } =
      (Except.error "ERROR_SECURE_CONTEXT_REQUIRED: MWA protocol requires HTTPS.", []) :=
  transact_insecure_context { hasWindow := true, isSecureContext := false }
    (Or.inr rfl)

/-- C10: in the Ready state, a well-formed (non-error) response envelope
whose id is not a key of the pending-request table leaves the session
entirely unchanged: same state tag, same pending table, socket still
open, and no continuation resolved or rejected and no error raised. -/
theorem handleMessageReady_unknown_id (st : SessionState) (seq : Nat)
    (env : Envelope) (hst : st.stype = StateType.sessionReady)
    (herr : env.error = none) (hid : env.id ∉ st.pending) :
    handleMessageReady st seq env = (st, SessionOutcome.noAction) := by
  simp [handleMessageReady, decryptJsonRpcMessage, herr, hid]

/-- C10 witness: a response for unknown id 7 against pending {1, 2}. -/
theorem handleMessageReady_unknown_id_witness :
    handleMessageReady readyStateTwoPending 5 (okEnvelope 7) =
      (readyStateTwoPending, SessionOutcome.noAction) :=
  handleMessageReady_unknown_id readyStateTwoPending 5 (okEnvelope 7)
    rfl rfl (by decide)

end MWA
